import Mathlib

/-!
Verification of the enrollment protocol gateway
(src/implementations/rust/ockam/ockam_api/src/cloud/enroll.rs).

The Rust source is shallowly embedded: the credential value types and the
minicbor-derived decoders follow the struct declarations and their field
indices; the two NodeManager flows are modelled as state-passing functions
over an environment of collaborator oracles (secure-channel open, downstream
request, secure-channel delete), each returning its result together with an
event trace recording channel and send effects; the test worker
EnrollHandler.handle_message is modelled as a pure function from the inbound
request to the produced response plus its (empty) effect trace.
-/

namespace EnrollSpec

/-- CBOR-level wire values, as far as the decoders in scope inspect them:
integers, text strings, maps keyed by numeric field indices, and arrays. -/
inductive CborVal where
  | int (n : Nat)
  | str (s : String)
  | map (entries : List (Nat × CborVal))
  | arr (items : List CborVal)

/-- Token: struct Token(pub Cow str), a transparent wrapper of a string. -/
structure Token where
  val : String
deriving DecidableEq

/-- Token::new(token) wraps the given string. -/
def Token.new (token : String) : Token := ⟨token⟩

/-- TokenType: index-only CBOR enum with the single variant Bearer at index 0. -/
inductive TokenType where
  | Bearer
deriving DecidableEq

/-- Modelled from the spec: Attributes (crate::auth::types, not under src/) is
an opaque key/value payload supplied by the caller and passed through
unmodified; the gateway does not interpret its contents, so it is modelled as
an opaque wire value. -/
structure Attributes where
  val : CborVal

/-- AuthenticateAuth0Token: cbor map with tag at index 0 (TypeTag 1058055),
token_type at index 1, access_token at index 2.  The tag is checked during
decode and not stored. -/
structure AuthenticateAuth0Token where
  token_type : TokenType
  access_token : Token

/-- RequestEnrollmentToken: cbor map with tag at index 0 (TypeTag 8560526)
and attributes at index 1. -/
structure RequestEnrollmentToken where
  attributes : Attributes

/-- RequestEnrollmentToken::new(attributes). -/
def RequestEnrollmentToken.new (attributes : Attributes) : RequestEnrollmentToken :=
  ⟨attributes⟩

/-- EnrollmentToken: cbor map with tag at index 0 (TypeTag 8932763) and
token at index 1. -/
structure EnrollmentToken where
  token : Token
deriving DecidableEq

/-- EnrollmentToken::new(token). -/
def EnrollmentToken.new (token : Token) : EnrollmentToken := ⟨token⟩

/-- AuthenticateEnrollmentToken: cbor map with tag at index 0
(TypeTag 9463780) and token at index 1. -/
structure AuthenticateEnrollmentToken where
  token : Token
deriving DecidableEq

/-- AuthenticateEnrollmentToken::new(token) extracts the inner token of the
given EnrollmentToken. -/
def AuthenticateEnrollmentToken.new (token : EnrollmentToken) : AuthenticateEnrollmentToken :=
  ⟨token.token⟩

/-- AuthenticateToken: the two-armed union of the bearer (auth0) payload and
the enrollment-token payload. -/
inductive AuthenticateToken where
  | Auth0 (t : AuthenticateAuth0Token)
  | EnrollmentToken (t : AuthenticateEnrollmentToken)

/-! ### Decoders

Modelled from the minicbor derive attributes in the source (cbor map with
numeric field indices) together with spec section 6: each wire-identified
struct carries a fixed numeric discriminant (the TypeTag at index 0) that is
asserted during decode; unknown indices are skipped; a missing required field
or a shape mismatch fails the decode. -/

/-- Decode a TypeTag with expected discriminant n: the value must be the
integer n. -/
def decodeTypeTag (n : Nat) : CborVal → Option Unit
  | .int m => if m = n then some () else none
  | _ => none

/-- Decode a TokenType: index-only enum, 0 is Bearer. -/
def decodeTokenType : CborVal → Option TokenType
  | .int 0 => some .Bearer
  | _ => none

/-- Decode a Token: transparent wrapper of a text string. -/
def decodeToken : CborVal → Option Token
  | .str s => some ⟨s⟩
  | _ => none

/-- Field loop of the derived decoder of AuthenticateAuth0Token. -/
def auth0Fields : List (Nat × CborVal) → Bool → Option TokenType → Option Token →
    Option AuthenticateAuth0Token
  | [], true, some tt, some tok => some ⟨tt, tok⟩
  | [], _, _, _ => none
  | (0, v) :: rest, _, tt, tok =>
      match decodeTypeTag 1058055 v with
      | some _ => auth0Fields rest true tt tok
      | none => none
  | (1, v) :: rest, tagOk, _, tok =>
      match decodeTokenType v with
      | some tt => auth0Fields rest tagOk (some tt) tok
      | none => none
  | (2, v) :: rest, tagOk, tt, _ =>
      match decodeToken v with
      | some tok => auth0Fields rest tagOk tt (some tok)
      | none => none
  | _ :: rest, tagOk, tt, tok => auth0Fields rest tagOk tt tok

/-- Decode an AuthenticateAuth0Token from a wire value. -/
def decodeAuth0Token : CborVal → Option AuthenticateAuth0Token
  | .map es => auth0Fields es false none none
  | _ => none

/-- Field loop of the derived decoder of AuthenticateEnrollmentToken. -/
def authEnrollFields : List (Nat × CborVal) → Bool → Option Token →
    Option AuthenticateEnrollmentToken
  | [], true, some tok => some ⟨tok⟩
  | [], _, _ => none
  | (0, v) :: rest, _, tok =>
      match decodeTypeTag 9463780 v with
      | some _ => authEnrollFields rest true tok
      | none => none
  | (1, v) :: rest, tagOk, _ =>
      match decodeToken v with
      | some tok => authEnrollFields rest tagOk (some tok)
      | none => none
  | _ :: rest, tagOk, tok => authEnrollFields rest tagOk tok

/-- Decode an AuthenticateEnrollmentToken from a wire value. -/
def decodeAuthEnrollmentToken : CborVal → Option AuthenticateEnrollmentToken
  | .map es => authEnrollFields es false none
  | _ => none

/-- Field loop of the derived decoder of RequestEnrollmentToken; the
attributes field is consumed opaquely. -/
def reqEnrollFields : List (Nat × CborVal) → Bool → Option Attributes →
    Option RequestEnrollmentToken
  | [], true, some a => some ⟨a⟩
  | [], _, _ => none
  | (0, v) :: rest, _, a =>
      match decodeTypeTag 8560526 v with
      | some _ => reqEnrollFields rest true a
      | none => none
  | (1, v) :: rest, tagOk, _ => reqEnrollFields rest tagOk (some ⟨v⟩)
  | _ :: rest, tagOk, a => reqEnrollFields rest tagOk a

/-- Decode a RequestEnrollmentToken from a wire value. -/
def decodeRequestEnrollmentToken : CborVal → Option RequestEnrollmentToken
  | .map es => reqEnrollFields es false none
  | _ => none

/-! ### Response envelope

Modelled from the spec (section 6): the request/response wire envelope lives
in ockam_core, not under src/.  A response carries an id echoing the request
id, a status, and an optional body. -/

/-- Response status: ok, bad request, or internal server error. -/
inductive Status where
  | Ok
  | BadRequest
  | InternalServerError
deriving DecidableEq

/-- A response body: either a plain string (the stringified downstream
failure) or an encoded EnrollmentToken. -/
inductive RespBody where
  | str (s : String)
  | token (t : EnrollmentToken)
deriving DecidableEq

/-- Modelled from the spec: the response envelope {id, status, optional body}
produced by the Response builder of ockam_core. -/
structure Response where
  id : Nat
  status : Status
  body : Option RespBody
deriving DecidableEq

/-- Response::ok(id): status Ok, no body. -/
def Response.ok (id : Nat) : Response := ⟨id, .Ok, none⟩

/-- Response::bad_request(id): status BadRequest, no body. -/
def Response.bad_request (id : Nat) : Response := ⟨id, .BadRequest, none⟩

/-- Attach a body to a response, as the builder method body(..) does. -/
def Response.withBody (r : Response) (b : RespBody) : Response :=
  { r with body := some b }

/-- Request method, as matched by the dispatcher. -/
inductive Method where
  | Get
  | Post
  | Put
  | Delete
  | Patch
deriving DecidableEq

/-- The inbound request as the dispatcher sees it: id, optional method, path,
the has_body header flag, and the body wire value. -/
structure InRequest where
  id : Nat
  method : Option Method
  path : String
  has_body : Bool
  body : CborVal

/-! ### The flows -/

/-- The outbound body forwarded downstream by a flow. -/
inductive ReqBody where
  | auth0 (t : AuthenticateAuth0Token)
  | enrollment (t : AuthenticateEnrollmentToken)
  | enrollRequest (r : RequestEnrollmentToken)

/-- Bytes returned by a flow: either raw bytes forwarded from downstream or a
locally encoded response envelope. -/
inductive ApiBytes where
  | raw (bytes : List Nat)
  | enc (r : Response)
deriving DecidableEq

/-- Effects a flow performs on its collaborators, in order: a secure channel
was opened, a request was sent over a channel to a named service at a path,
a channel delete was attempted. -/
inductive Event where
  | opened (sc : Nat)
  | sent (sc : Nat) (service : String) (path : String) (body : ReqBody)
  | closeAttempt (sc : Nat)

/-- The collaborator oracles a flow consumes: secure_channel(cloud_route),
request(ctx, .., route, req_builder), delete_secure_channel(ctx, sc).  The
channel handle is a number; errors are their stringified form (the flows only
ever use err.to_string()). -/
structure Env where
  openChannel : Except String Nat
  request : Nat → String → String → ReqBody → Except String (List Nat)
  closeChannel : Nat → Except String Unit

/-- The shared tail of both flows, exactly as both Rust functions spell it
out after the channel is open: send the request, convert a downstream error
into an Ok internal-server-error response for the original request id, then
delete the secure channel with the question-mark operator (so a delete
failure is returned as the local error), and finally return the converted
result. -/
def sendAndClose (env : Env) (req_id : Nat) (sc : Nat) (service : String)
    (path : String) (payload : ReqBody) : Except String ApiBytes × List Event :=
  let r := env.request sc service path payload
  let res : Except String ApiBytes :=
    match r with
    | .ok bytes => .ok (.raw bytes)
    | .error err =>
        .ok (.enc { id := req_id, status := .InternalServerError, body := some (.str err) })
  let evs := [Event.opened sc, Event.sent sc service path payload, Event.closeAttempt sc]
  match env.closeChannel sc with
  | .error e => (.error e, evs)
  | .ok _ => (res, evs)

/-- NodeManager::authenticate_token: open a secure channel to the cloud
route; select the downstream service from the two-armed union (auth0
authenticator for the bearer arm, enrollment token authenticator for the
enrollment arm), post the payload at v0/enroll, convert a downstream failure
into an internal-server-error response for req_id, then delete the channel
and return. -/
def NodeManager.authenticate_token (env : Env) (req_id : Nat)
    (body : AuthenticateToken) : Except String ApiBytes × List Event :=
  match env.openChannel with
  | .error e => (.error e, [])
  | .ok sc =>
    match body with
    | .Auth0 b => sendAndClose env req_id sc "auth0_authenticator" "v0/enroll" (.auth0 b)
    | .EnrollmentToken b =>
        sendAndClose env req_id sc "enrollment_token_authenticator" "v0/enroll" (.enrollment b)

/-- NodeManager::generate_enrollment_token: wrap the decoded attributes in a
RequestEnrollmentToken, open a secure channel, post it at v0/ to the
enrollment token authenticator, convert a downstream failure into an
internal-server-error response for req_id, then delete the channel and
return. -/
def NodeManager.generate_enrollment_token (env : Env) (req_id : Nat)
    (attributes : Attributes) : Except String ApiBytes × List Event :=
  let req_body := RequestEnrollmentToken.new attributes
  match env.openChannel with
  | .error e => (.error e, [])
  | .ok sc =>
      sendAndClose env req_id sc "enrollment_token_authenticator" "v0/" (.enrollRequest req_body)

/-- EnrollHandler::handle_message: match on (method, path, has_body); POST
v0/ with a body decoding as RequestEnrollmentToken answers ok with a fresh
EnrollmentToken body; POST v0/enroll with a body decoding as
AuthenticateAuth0Token or else as AuthenticateEnrollmentToken answers ok;
every other case answers bad_request.  The handler touches no secure
channel, so its event trace is empty in every branch. -/
def EnrollHandler.handle_message (msg : InRequest) : Response × List Event :=
  if msg.method = some Method.Post ∧ msg.path = "v0/" ∧ msg.has_body = true then
    if (decodeRequestEnrollmentToken msg.body).isSome then
      ((Response.ok msg.id).withBody (.token (EnrollmentToken.new (Token.new "ok"))), [])
    else
      (Response.bad_request msg.id, [])
  else if msg.method = some Method.Post ∧ msg.path = "v0/enroll" ∧ msg.has_body = true then
    if (decodeAuth0Token msg.body).isSome || (decodeAuthEnrollmentToken msg.body).isSome then
      (Response.ok msg.id, [])
    else
      (Response.bad_request msg.id, [])
  else
    (Response.bad_request msg.id, [])

/-! ### Trace observations and the decode-precedence view -/

/-- Whether an event is a delete attempt of the given channel. -/
def isClose (sc : Nat) : Event → Bool
  | .closeAttempt c => c == sc
  | _ => false

/-- How many delete attempts of the given channel a trace holds. -/
def closeCount (sc : Nat) (evs : List Event) : Nat :=
  (evs.filter (isClose sc)).length

/-- Whether an event is a downstream send. -/
def isSent : Event → Bool
  | .sent _ _ _ _ => true
  | _ => false

/-- The downstream sends of a trace, in order. -/
def sentEvents (evs : List Event) : List Event :=
  evs.filter isSent

/-- The two authentication flow kinds of the dispatcher. -/
inductive FlowKind where
  | bearer
  | enrollment
deriving DecidableEq

/-- The flow the v0/enroll arm selects, rendering the short-circuit
disjunction of the source: the bearer decode is consulted first and the
enrollment decode only on its failure. -/
def enrollSelectedFlow (body : CborVal) : Option AuthenticateToken :=
  match decodeAuth0Token body with
  | some t => some (.Auth0 t)
  | none =>
      match decodeAuthEnrollmentToken body with
      | some t => some (.EnrollmentToken t)
      | none => none

/-- The decoders the v0/enroll arm runs, in order, rendering the evaluation
order of the short-circuit disjunction of the source. -/
def enrollDecodeAttempts (body : CborVal) : List FlowKind :=
  if (decodeAuth0Token body).isSome then [.bearer] else [.bearer, .enrollment]

/-! ### Concrete fixtures -/

/-- An environment whose collaborators all succeed. -/
def envHappy : Env :=
  ⟨.ok 0, fun _ _ _ _ => .ok [1, 2, 3], fun _ => .ok ()⟩

/-- An environment whose channel open fails. -/
def envOpenFail : Env :=
  ⟨.error "no-route", fun _ _ _ _ => .ok [1, 2, 3], fun _ => .ok ()⟩

/-- An environment whose downstream request fails but whose channel
operations succeed. -/
def envRemoteDown : Env :=
  ⟨.ok 0, fun _ _ _ _ => .error "remote-down", fun _ => .ok ()⟩

/-- An environment whose downstream request succeeds but whose channel
delete fails. -/
def envCloseFail : Env :=
  ⟨.ok 0, fun _ _ _ _ => .ok [1, 2, 3], fun _ => .error "close-failed"⟩

/-- An environment whose downstream request and channel delete both fail. -/
def envRemoteDownCloseFail : Env :=
  ⟨.ok 0, fun _ _ _ _ => .error "remote-down", fun _ => .error "close-failed"⟩

/-- A concrete bearer payload. -/
def auth0Tok : AuthenticateAuth0Token := ⟨.Bearer, ⟨"tok"⟩⟩

/-- A concrete enrollment-token payload. -/
def enrollTok : AuthenticateEnrollmentToken := ⟨⟨"tok"⟩⟩

/-- A concrete opaque attribute payload. -/
def attrsX : Attributes := ⟨.int 0⟩

/-- A wire value decoding as a bearer payload. -/
def bearerWire : CborVal := .map [(0, .int 1058055), (1, .int 0), (2, .str "tok")]

/-- A wire value decoding as an enrollment-token payload. -/
def enrollWire : CborVal := .map [(0, .int 9463780), (1, .str "tok")]

/-! ### Helper lemmas on the shared flow tail -/

theorem closeCount_sendAndClose (env : Env) (req_id sc : Nat) (service path : String)
    (payload : ReqBody) :
    closeCount sc (sendAndClose env req_id sc service path payload).2 = 1 := by
  unfold sendAndClose
  cases env.closeChannel sc <;>
    simp [closeCount, isClose, List.filter]

theorem sentEvents_sendAndClose (env : Env) (req_id sc : Nat) (service path : String)
    (payload : ReqBody) :
    sentEvents (sendAndClose env req_id sc service path payload).2 =
      [Event.sent sc service path payload] := by
  unfold sendAndClose
  cases env.closeChannel sc <;>
    simp [sentEvents, isSent, List.filter]

theorem sendAndClose_fst_of_requestError (env : Env) (req_id sc : Nat) (service path : String)
    (payload : ReqBody) (e : String)
    (hReq : env.request sc service path payload = .error e)
    (hClose : env.closeChannel sc = .ok ()) :
    (sendAndClose env req_id sc service path payload).1 =
      .ok (.enc { id := req_id, status := .InternalServerError, body := some (.str e) }) := by
  unfold sendAndClose
  simp only [hReq, hClose]

theorem sendAndClose_fst_of_closeError (env : Env) (req_id sc : Nat) (service path : String)
    (payload : ReqBody) (e : String)
    (hClose : env.closeChannel sc = .error e) :
    (sendAndClose env req_id sc service path payload).1 = .error e := by
  unfold sendAndClose
  simp only [hClose]

theorem sendAndClose_enc_id (env : Env) (req_id sc : Nat) (service path : String)
    (payload : ReqBody) (r : Response) (evs : List Event)
    (h : sendAndClose env req_id sc service path payload = (.ok (.enc r), evs)) :
    r.id = req_id := by
  unfold sendAndClose at h
  cases hReq : env.request sc service path payload <;>
    cases hClose : env.closeChannel sc <;>
      simp [hReq, hClose] at h
  obtain ⟨h1, -⟩ := h
  rw [← h1]

/-! ### The claims -/

/-- C10: the value-type constructors preserve the wrapped payload unchanged:
Token.new wraps exactly the given string, EnrollmentToken.new carries exactly
the given token, and AuthenticateEnrollmentToken.new extracts the inner token
of the given EnrollmentToken without modification. -/
theorem C10_constructors_preserve_payload (s : String) (t : Token) :
    (Token.new s).val = s ∧
    (EnrollmentToken.new t).token = t ∧
    (AuthenticateEnrollmentToken.new (EnrollmentToken.new t)).token = t :=
  ⟨rfl, rfl, rfl⟩

/-- C5: when opening the secure channel fails, each flow returns that failure
as its local error and performs no downstream action: its event trace is
empty, so no request is built or sent to any remote authenticator service. -/
theorem C5_open_failure_no_downstream (env : Env) (req_id : Nat)
    (body : AuthenticateToken) (attributes : Attributes) (e : String)
    (h : env.openChannel = .error e) :
    NodeManager.authenticate_token env req_id body = (.error e, []) ∧
    NodeManager.generate_enrollment_token env req_id attributes = (.error e, []) := by
  constructor
  · unfold NodeManager.authenticate_token
    rw [h]
  · unfold NodeManager.generate_enrollment_token
    rw [h]

/-- Witness for C5 at a concrete environment whose channel open fails. -/
theorem C5_open_failure_no_downstream_witness :
    envOpenFail.openChannel = .error "no-route" ∧
    NodeManager.authenticate_token envOpenFail 7 (.Auth0 auth0Tok) = (.error "no-route", []) ∧
    NodeManager.generate_enrollment_token envOpenFail 7 attrsX = (.error "no-route", []) :=
  ⟨rfl, C5_open_failure_no_downstream envOpenFail 7 (.Auth0 auth0Tok) attrsX "no-route" rfl⟩

/-- C1: in both handled flows, whenever the secure channel open succeeds, the
opened channel is deleted exactly once before the flow returns, on every exit
path, including the path where the downstream forwarded call returns an
error. -/
theorem C1_channel_closed_exactly_once (env : Env) (req_id sc : Nat)
    (body : AuthenticateToken) (attributes : Attributes)
    (h : env.openChannel = .ok sc) :
    closeCount sc (NodeManager.authenticate_token env req_id body).2 = 1 ∧
    closeCount sc (NodeManager.generate_enrollment_token env req_id attributes).2 = 1 := by
  constructor
  · unfold NodeManager.authenticate_token
    rw [h]
    cases body
    · apply closeCount_sendAndClose
    · apply closeCount_sendAndClose
  · unfold NodeManager.generate_enrollment_token
    rw [h]
    apply closeCount_sendAndClose

/-- Witness for C1 at a concrete environment whose downstream call fails. -/
theorem C1_channel_closed_exactly_once_witness :
    envRemoteDown.openChannel = .ok 0 ∧
    closeCount 0 (NodeManager.authenticate_token envRemoteDown 7 (.EnrollmentToken enrollTok)).2 = 1 ∧
    closeCount 0 (NodeManager.generate_enrollment_token envRemoteDown 7 attrsX).2 = 1 :=
  ⟨rfl, C1_channel_closed_exactly_once envRemoteDown 7 0 (.EnrollmentToken enrollTok) attrsX rfl⟩

/-- C8: flow selection is a pure mapping; per opened-channel flow exactly one
downstream send occurs: the bearer arm posts its payload to
auth0_authenticator at v0/enroll, the enrollment arm posts its payload to
enrollment_token_authenticator at v0/enroll, and the issuance flow posts
RequestEnrollmentToken wrapping the attributes to
enrollment_token_authenticator at v0/. -/
theorem C8_flow_selection_mapping (env : Env) (req_id sc : Nat)
    (b0 : AuthenticateAuth0Token) (bE : AuthenticateEnrollmentToken)
    (attributes : Attributes)
    (h : env.openChannel = .ok sc) :
    sentEvents (NodeManager.authenticate_token env req_id (.Auth0 b0)).2 =
      [Event.sent sc "auth0_authenticator" "v0/enroll" (.auth0 b0)] ∧
    sentEvents (NodeManager.authenticate_token env req_id (.EnrollmentToken bE)).2 =
      [Event.sent sc "enrollment_token_authenticator" "v0/enroll" (.enrollment bE)] ∧
    sentEvents (NodeManager.generate_enrollment_token env req_id attributes).2 =
      [Event.sent sc "enrollment_token_authenticator" "v0/"
        (.enrollRequest { attributes := attributes })] := by
  refine ⟨?_, ?_, ?_⟩
  · unfold NodeManager.authenticate_token
    rw [h]
    apply sentEvents_sendAndClose
  · unfold NodeManager.authenticate_token
    rw [h]
    apply sentEvents_sendAndClose
  · unfold NodeManager.generate_enrollment_token
    rw [h]
    apply sentEvents_sendAndClose

/-- Witness for C8 at a concrete environment with concrete payloads. -/
theorem C8_flow_selection_mapping_witness :
    envHappy.openChannel = .ok 0 ∧
    sentEvents (NodeManager.authenticate_token envHappy 7 (.Auth0 auth0Tok)).2 =
      [Event.sent 0 "auth0_authenticator" "v0/enroll" (.auth0 auth0Tok)] ∧
    sentEvents (NodeManager.authenticate_token envHappy 7 (.EnrollmentToken enrollTok)).2 =
      [Event.sent 0 "enrollment_token_authenticator" "v0/enroll" (.enrollment enrollTok)] ∧
    sentEvents (NodeManager.generate_enrollment_token envHappy 7 attrsX).2 =
      [Event.sent 0 "enrollment_token_authenticator" "v0/"
        (.enrollRequest { attributes := attrsX })] :=
  ⟨rfl, C8_flow_selection_mapping envHappy 7 0 auth0Tok enrollTok attrsX rfl⟩

/-- C2 counterexample: in a concrete run where the downstream call fails and
the subsequent channel delete also fails, the flow returns a local error (the
delete failure), not a successful local result carrying the
internal-server-error response, so the claim as stated fails. -/
theorem C2_counterexample :
    envRemoteDownCloseFail.request 0 "enrollment_token_authenticator" "v0/enroll"
      (.enrollment enrollTok) = .error "remote-down" ∧
    (NodeManager.authenticate_token envRemoteDownCloseFail 7
      (.EnrollmentToken enrollTok)).1 = .error "close-failed" :=
  ⟨rfl, rfl⟩

/-- C2 amended: for every downstream call failure, provided the subsequent
channel delete succeeds, the flow returns a successful local result whose
value is the response with status internal-server-error, id equal to the
original request id, and body the stringified failure; the downstream error
itself is not propagated as the local error. -/
theorem C2_downstream_failure_converted (env : Env) (req_id sc : Nat)
    (body : AuthenticateToken) (attributes : Attributes) (e : String)
    (hOpen : env.openChannel = .ok sc)
    (hReq : ∀ service path payload, env.request sc service path payload = .error e)
    (hClose : env.closeChannel sc = .ok ()) :
    (NodeManager.authenticate_token env req_id body).1 =
      .ok (.enc { id := req_id, status := .InternalServerError, body := some (.str e) }) ∧
    (NodeManager.generate_enrollment_token env req_id attributes).1 =
      .ok (.enc { id := req_id, status := .InternalServerError, body := some (.str e) }) := by
  constructor
  · unfold NodeManager.authenticate_token
    rw [hOpen]
    cases body
    · exact sendAndClose_fst_of_requestError env req_id sc _ _ _ e (hReq _ _ _) hClose
    · exact sendAndClose_fst_of_requestError env req_id sc _ _ _ e (hReq _ _ _) hClose
  · unfold NodeManager.generate_enrollment_token
    rw [hOpen]
    exact sendAndClose_fst_of_requestError env req_id sc _ _ _ e (hReq _ _ _) hClose

/-- Witness for the amended C2 at a concrete environment whose downstream
call fails and whose channel delete succeeds. -/
theorem C2_downstream_failure_converted_witness :
    envRemoteDown.openChannel = .ok 0 ∧
    envRemoteDown.closeChannel 0 = .ok () ∧
    (NodeManager.authenticate_token envRemoteDown 7 (.Auth0 auth0Tok)).1 =
      .ok (.enc { id := 7, status := .InternalServerError, body := some (.str "remote-down") }) ∧
    (NodeManager.generate_enrollment_token envRemoteDown 7 attrsX).1 =
      .ok (.enc { id := 7, status := .InternalServerError, body := some (.str "remote-down") }) :=
  ⟨rfl, rfl, C2_downstream_failure_converted envRemoteDown 7 0 (.Auth0 auth0Tok) attrsX
    "remote-down" rfl (fun _ _ _ => rfl) rfl⟩

/-- C4 counterexample: in a concrete run where the downstream call completed
with success bytes and the subsequent channel delete fails, the flow returns
the delete failure as a local error instead of the already-computed response,
so the claim as stated fails. -/
theorem C4_counterexample :
    envCloseFail.request 0 "auth0_authenticator" "v0/enroll" (.auth0 auth0Tok) = .ok [1, 2, 3] ∧
    (NodeManager.authenticate_token envCloseFail 7 (.Auth0 auth0Tok)).1 = .error "close-failed" ∧
    (NodeManager.authenticate_token envCloseFail 7 (.Auth0 auth0Tok)).1 ≠ .ok (.raw [1, 2, 3]) :=
  ⟨rfl, rfl, fun hc => Except.noConfusion hc⟩

/-- C4 amended: a failure of the channel delete step after the downstream
call has completed is not best-effort: the flow returns the delete failure as
its local error, overriding the already-computed response; the computed
response is returned only when the delete succeeds. -/
theorem C4_close_failure_overrides_response (env : Env) (req_id sc : Nat)
    (body : AuthenticateToken) (attributes : Attributes) (e : String)
    (hOpen : env.openChannel = .ok sc)
    (hClose : env.closeChannel sc = .error e) :
    (NodeManager.authenticate_token env req_id body).1 = .error e ∧
    (NodeManager.generate_enrollment_token env req_id attributes).1 = .error e := by
  constructor
  · unfold NodeManager.authenticate_token
    rw [hOpen]
    cases body
    · exact sendAndClose_fst_of_closeError env req_id sc _ _ _ e hClose
    · exact sendAndClose_fst_of_closeError env req_id sc _ _ _ e hClose
  · unfold NodeManager.generate_enrollment_token
    rw [hOpen]
    exact sendAndClose_fst_of_closeError env req_id sc _ _ _ e hClose

/-- Witness for the amended C4 at a concrete environment whose channel delete
fails. -/
theorem C4_close_failure_overrides_response_witness :
    envCloseFail.openChannel = .ok 0 ∧
    envCloseFail.closeChannel 0 = .error "close-failed" ∧
    (NodeManager.authenticate_token envCloseFail 7 (.EnrollmentToken enrollTok)).1 =
      .error "close-failed" ∧
    (NodeManager.generate_enrollment_token envCloseFail 7 attrsX).1 = .error "close-failed" :=
  ⟨rfl, rfl, C4_close_failure_overrides_response envCloseFail 7 0 (.EnrollmentToken enrollTok)
    attrsX "close-failed" rfl rfl⟩

/-- C9: every response produced by the dispatcher and the flows, whether ok,
bad request, or internal server error, carries an id equal to the id of the
inbound request it answers: the handler response echoes the inbound id, and
any encoded response envelope returned by a flow carries the req_id the flow
was invoked with. -/
theorem C9_response_id_echoes_request (req : InRequest) (env : Env) (req_id : Nat)
    (body : AuthenticateToken) (attributes : Attributes) (r r2 : Response)
    (evs evs2 : List Event)
    (h1 : NodeManager.authenticate_token env req_id body = (.ok (.enc r), evs))
    (h2 : NodeManager.generate_enrollment_token env req_id attributes = (.ok (.enc r2), evs2)) :
    (EnrollHandler.handle_message req).1.id = req.id ∧ r.id = req_id ∧ r2.id = req_id := by
  refine ⟨?_, ?_, ?_⟩
  · unfold EnrollHandler.handle_message
    split
    · split <;> rfl
    · split
      · split <;> rfl
      · rfl
  · unfold NodeManager.authenticate_token at h1
    cases hOpen : env.openChannel <;> rw [hOpen] at h1
    · simp at h1
    · cases body <;> exact sendAndClose_enc_id _ _ _ _ _ _ _ _ h1
  · unfold NodeManager.generate_enrollment_token at h2
    cases hOpen : env.openChannel <;> rw [hOpen] at h2
    · simp at h2
    · exact sendAndClose_enc_id _ _ _ _ _ _ _ _ h2

/-- Witness for C9 at a concrete request and a concrete environment whose
downstream calls fail, so both flows return encoded error envelopes. -/
theorem C9_response_id_echoes_request_witness :
    (EnrollHandler.handle_message ⟨3, some Method.Post, "v0/enroll", true, bearerWire⟩).1.id = 3 ∧
    (Response.mk 7 .InternalServerError (some (.str "remote-down"))).id = 7 ∧
    (Response.mk 7 .InternalServerError (some (.str "remote-down"))).id = 7 :=
  C9_response_id_echoes_request ⟨3, some Method.Post, "v0/enroll", true, bearerWire⟩
    envRemoteDown 7 (.Auth0 auth0Tok) attrsX
    ⟨7, .InternalServerError, some (.str "remote-down")⟩
    ⟨7, .InternalServerError, some (.str "remote-down")⟩
    [.opened 0, .sent 0 "auth0_authenticator" "v0/enroll" (.auth0 auth0Tok), .closeAttempt 0]
    [.opened 0, .sent 0 "enrollment_token_authenticator" "v0/"
      (.enrollRequest (RequestEnrollmentToken.new attrsX)), .closeAttempt 0]
    rfl rfl

/-- C7: every inbound request whose method and path pair is neither a POST to
the issuance path v0/ nor a POST to the enroll path v0/enroll is answered
with a bad request response carrying the inbound id, regardless of the body
content. -/
theorem C7_unrecognized_pair_bad_request (req : InRequest)
    (h1 : ¬(req.method = some Method.Post ∧ req.path = "v0/"))
    (h2 : ¬(req.method = some Method.Post ∧ req.path = "v0/enroll")) :
    (EnrollHandler.handle_message req).1 = Response.bad_request req.id := by
  unfold EnrollHandler.handle_message
  rw [if_neg (fun hc => h1 ⟨hc.1, hc.2.1⟩), if_neg (fun hc => h2 ⟨hc.1, hc.2.1⟩)]

/-- Witness for C7 at a concrete GET request to an unknown path. -/
theorem C7_unrecognized_pair_bad_request_witness :
    (EnrollHandler.handle_message ⟨5, some Method.Get, "v0/other", true, .int 0⟩).1 =
      Response.bad_request 5 :=
  C7_unrecognized_pair_bad_request ⟨5, some Method.Get, "v0/other", true, .int 0⟩
    (by decide) (by decide)

/-- C6: every POST to the enroll path v0/enroll whose body decodes as neither
AuthenticateAuth0Token nor AuthenticateEnrollmentToken is answered with a bad
request response carrying the inbound id, and no secure channel is opened:
the handler event trace is empty. -/
theorem C6_enroll_neither_decodes_bad_request (req : InRequest)
    (hm : req.method = some Method.Post) (hp : req.path = "v0/enroll")
    (h1 : decodeAuth0Token req.body = none)
    (h2 : decodeAuthEnrollmentToken req.body = none) :
    EnrollHandler.handle_message req = (Response.bad_request req.id, []) := by
  unfold EnrollHandler.handle_message
  cases hb : req.has_body <;>
    simp [hm, hp, hb, h1, h2]

/-- Witness for C6 at a concrete body decoding as neither shape. -/
theorem C6_enroll_neither_decodes_bad_request_witness :
    decodeAuth0Token (.int 5) = none ∧
    decodeAuthEnrollmentToken (.int 5) = none ∧
    EnrollHandler.handle_message ⟨2, some Method.Post, "v0/enroll", true, .int 5⟩ =
      (Response.bad_request 2, []) :=
  ⟨rfl, rfl, C6_enroll_neither_decodes_bad_request
    ⟨2, some Method.Post, "v0/enroll", true, .int 5⟩ rfl rfl rfl rfl⟩

/-- C3: the v0/enroll arm decodes the bearer shape first and attempts the
enrollment shape only if the bearer decode fails: whenever the bearer decode
succeeds, the attempted decoder list is just the bearer decoder, the selected
flow is the bearer flow carrying the decoded payload, and the handler answers
ok; in particular a body that also decodes as the enrollment shape selects
the bearer flow. -/
theorem C3_bearer_decode_precedence (b : CborVal) (t : AuthenticateAuth0Token)
    (rid : Nat) (h : decodeAuth0Token b = some t) :
    enrollDecodeAttempts b = [FlowKind.bearer] ∧
    enrollSelectedFlow b = some (.Auth0 t) ∧
    (EnrollHandler.handle_message ⟨rid, some Method.Post, "v0/enroll", true, b⟩).1 =
      Response.ok rid := by
  refine ⟨?_, ?_, ?_⟩
  · unfold enrollDecodeAttempts
    rw [h]
    rfl
  · unfold enrollSelectedFlow
    rw [h]
  · unfold EnrollHandler.handle_message
    simp [h]

/-- Witness for C3 at a concrete wire value decoding as a bearer payload. -/
theorem C3_bearer_decode_precedence_witness :
    decodeAuth0Token bearerWire = some auth0Tok ∧
    enrollDecodeAttempts bearerWire = [FlowKind.bearer] ∧
    enrollSelectedFlow bearerWire = some (.Auth0 auth0Tok) ∧
    (EnrollHandler.handle_message ⟨2, some Method.Post, "v0/enroll", true, bearerWire⟩).1 =
      Response.ok 2 :=
  ⟨rfl, C3_bearer_decode_precedence bearerWire auth0Tok 2 rfl⟩

end EnrollSpec
